import Mathlib

/-!
Verification of the RNPathfinders subject-lock engine (`src/server.js`).

The repository ships three successive versions of the same Express server:
`src/unnamed/part_000` (v1, no lock engine), and two documents inside
`src/server.js` — v2 (lines 1-1426) and v3 (lines 1427-2221).  The lock
engine lives in v2 and v3; where both versions implement an operation we
embed both, suffixed `V2` / `V3`.  Handlers are embedded as pure functions
over an explicit user/session state; timestamps are integer milliseconds
(JS `Date.now()`), and fallible handlers return `Except ApiError`.
-/

namespace RNPathfinders

/-- Milliseconds since the epoch, as produced by JS `Date.now()`. -/
abbrev Time := Int

/-- The `users` row fields relevant to the lock engine.  Defaults at
registration (schema `CREATE TABLE users`): lock fields NULL, flags FALSE,
counters 0. -/
structure UserState where
  primarySubjectId : Option Nat
  subjectLockedAt : Option Time
  lockExpiresAt : Option Time
  onboardingComplete : Bool
  unlockRequested : Bool
  unlockRequestedAt : Option Time
  sessionCount : Nat
  aarCount : Nat
  totalStudyMinutes : Int
  deriving Repr, DecidableEq

/-- A freshly registered user: every lock field NULL, flags FALSE, counters 0
(column defaults of the v3 `users` table). -/
def freshUser : UserState where
  primarySubjectId := none
  subjectLockedAt := none
  lockExpiresAt := none
  onboardingComplete := false
  unlockRequested := false
  unlockRequestedAt := none
  sessionCount := 0
  aarCount := 0
  totalStudyMinutes := 0

/-- Typed rejections of the handlers (the JS 400/404 error strings). -/
inductive ApiError where
  /-- v3 unlock-request: the 400 response reading No subject to unlock. -/
  | noActiveLock
  /-- declare-subject: the 400 response reading Subject ID is required. -/
  | subjectRequired
  /-- declare-subject: the 400 response reading You already have a primary
  subject declared (v2) or Subject already locked (v3). -/
  | alreadyLocked
  /-- v2 declare-subject: the 404 response reading Subject not found. -/
  | subjectNotFound
  /-- session completion: the 404 response reading Session not found. -/
  | sessionNotFound
  /-- v2 session completion: the 400 response reading Session already
  completed. -/
  | sessionAlreadyCompleted
  /-- session completion: the 400 response reading Session must be at
  least 5 minutes to count. -/
  | sessionTooShort
  /-- aar submission: the 400 response reading All AAR fields are
  required. -/
  | missingFields
  /-- aar submission: the 400 response reading AAR must be at least 20
  words total. -/
  | aarTooShort
  deriving Repr, DecidableEq

/-- JS `Math.floor(a / b)` on integer millisecond arithmetic: for `b > 0`,
floor of the real quotient is Euclidean division. -/
def jsFloorDiv (a b : Time) : Int := Int.ediv a b

/-- JS `Math.ceil(a / b)` for `b > 0`: `⌈a/b⌉ = -⌊(-a)/b⌋`. -/
def jsCeilDiv (a b : Time) : Int := -(Int.ediv (-a) b)

/-- JS `Math.round(a / b)` for even `b > 0`: `Math.round x = ⌊x + 1/2⌋`
(halves round toward positive infinity), so
`round (a/b) = ⌊(a + b/2)/b⌋`. -/
def jsRoundDiv (a b : Time) : Int := Int.ediv (a + Int.ediv b 2) b

/-- Progress triple reported by the not-eligible branch of
`/api/unlock-request` (`{ days: daysPassed, sessions, aars }`). -/
structure UnlockProgress where
  days : Int
  sessions : Nat
  aars : Nat
  deriving Repr, DecidableEq

/-- Outcome reported by `/api/unlock-request`: the eligible branch answers
`{ unlocked: true }`, the other branch reports progress with
`requirementsMet: false` (no unlock). -/
inductive UnlockOutcome where
  | unlocked
  | pending (progress : UnlockProgress)
  deriving Repr, DecidableEq

/-- `POST /api/unlock-request` (v3, `src/server.js:1795-1850`).
Rejects when `primary_subject_id` is NULL; otherwise computes
`daysPassed = Math.floor((Date.now() - subject_locked_at) / 86400000)`
(0 when `subject_locked_at` is NULL), and either auto-unlocks
(`daysPassed >= 7 && sessions >= 5 && aars >= 3`) clearing the lock-field
group, or records the pending request
(`unlock_requested = TRUE, unlock_requested_at = now`). -/
def requestUnlock (now : Time) (u : UserState) :
    Except ApiError (UserState × UnlockOutcome) :=
  match u.primarySubjectId with
  | none => .error .noActiveLock
  | some _ =>
    let daysPassed : Int :=
      match u.subjectLockedAt with
      | some lockedAt => jsFloorDiv (now - lockedAt) 86400000
      | none => 0
    let sessions := u.sessionCount
    let aars := u.aarCount
    if daysPassed ≥ 7 ∧ sessions ≥ 5 ∧ aars ≥ 3 then
      .ok ({ u with primarySubjectId := none, subjectLockedAt := none,
                    lockExpiresAt := none, onboardingComplete := false,
                    unlockRequested := false }, .unlocked)
    else
      .ok ({ u with unlockRequested := true, unlockRequestedAt := some now },
           .pending { days := daysPassed, sessions := sessions, aars := aars })

/-- `POST /api/declare-subject` (v2, `src/server.js:729-799`).
Takes the catalog predicate `isActiveSubject`
(`SELECT * FROM subjects WHERE id = $1 AND is_active = TRUE`).
Note the already-declared guard requires `primary_subject_id` set AND
`onboarding_complete` true; the lock expiry is seven calendar days
(`setDate(getDate() + 7)`), i.e. `now + 604800000` ms in this model. -/
def declareSubjectV2 (now : Time) (isActiveSubject : Nat → Bool)
    (subjectId : Option Nat) (u : UserState) : Except ApiError UserState :=
  match subjectId with
  | none => .error .subjectRequired
  | some sid =>
    if u.primarySubjectId.isSome && u.onboardingComplete then
      .error .alreadyLocked
    else if !(isActiveSubject sid) then
      .error .subjectNotFound
    else
      .ok { u with primarySubjectId := some sid, subjectLockedAt := some now,
                   lockExpiresAt := some (now + 604800000),
                   onboardingComplete := true }

/-- `POST /api/declare-subject` (v3, `src/server.js:2036-2046`).
Rejects only when `subjectId` is missing or `primary_subject_id` is already
set; it performs no lookup of the subject in the catalog.  On success the
lock expiry is `Date.now() + 7*24*60*60*1000`. -/
def declareSubjectV3 (now : Time) (subjectId : Option Nat) (u : UserState) :
    Except ApiError UserState :=
  match subjectId with
  | none => .error .subjectRequired
  | some sid =>
    if u.primarySubjectId.isSome then
      .error .alreadyLocked
    else
      .ok { u with primarySubjectId := some sid, subjectLockedAt := some now,
                   lockExpiresAt := some (now + 7 * 24 * 60 * 60 * 1000),
                   onboardingComplete := true }

/-- `POST /api/admin/users/:id/approve-unlock` (v3, `src/server.js:1942-1966`).
One UPDATE: clears the lock-field group and zeroes both counters; there is
no eligibility or pending-request precondition. -/
def adminApproveUnlock (u : UserState) : UserState :=
  { u with primarySubjectId := none, subjectLockedAt := none,
           lockExpiresAt := none, onboardingComplete := false,
           unlockRequested := false, aarCount := 0, sessionCount := 0 }

/-- `POST /api/admin/users/:id/deny-unlock` (v3, `src/server.js:1968-2000`).
One UPDATE: `unlock_requested = FALSE`, nothing else. -/
def adminDenyUnlock (u : UserState) : UserState :=
  { u with unlockRequested := false }

/-- `POST /api/admin/users/:id/unlock` (v3, `src/server.js:2191-2198`), the
force-unlock escape hatch: same UPDATE as approve-unlock (column order
aside), no pending-request requirement. -/
def adminForceUnlock (u : UserState) : UserState :=
  { u with primarySubjectId := none, subjectLockedAt := none,
           lockExpiresAt := none, onboardingComplete := false,
           aarCount := 0, sessionCount := 0, unlockRequested := false }

/-- The `study_sessions` row fields relevant to completion. -/
structure SessionState where
  startedAt : Time
  isCompleted : Bool
  completedAt : Option Time
  actualDuration : Option Int
  deriving Repr, DecidableEq

/-- Result of a successful session completion: the updated session row, the
updated user row, and the reported duration. -/
structure SessionResult where
  session : SessionState
  user : UserState
  actualDuration : Int
  deriving Repr, DecidableEq

/-- `POST /api/sessions/:id/complete` (v2, `src/server.js:905-978`).
The `s?` argument models the lookup
`SELECT * FROM study_sessions WHERE id = $1 AND user_id = $2`: `none` when
the session does not exist or belongs to another user.  Rejects an
already-completed session; computes
`actualDuration = Math.round((Date.now() - started_at) / 60000)`
(embedded as `⌊(ms + 30000) / 60000⌋`, see `jsRoundDiv_eq_round`); rejects
below 5 minutes; otherwise completes the row and increments
`session_count` by 1 and `total_study_minutes` by the duration. -/
def completeSessionV2 (now : Time) (s? : Option SessionState) (u : UserState) :
    Except ApiError SessionResult :=
  match s? with
  | none => .error .sessionNotFound
  | some s =>
    if s.isCompleted then .error .sessionAlreadyCompleted
    else
      let actualDuration := jsRoundDiv (now - s.startedAt) 60000
      if actualDuration < 5 then .error .sessionTooShort
      else
        .ok { session := { s with isCompleted := true, completedAt := some now,
                                  actualDuration := some actualDuration },
              user := { u with sessionCount := u.sessionCount + 1,
                               totalStudyMinutes :=
                                 u.totalStudyMinutes + actualDuration },
              actualDuration := actualDuration }

/-- `POST /api/sessions/:id/complete` (v3, `src/server.js:2100-2111`).
Same ownership lookup, but the duration is
`Math.floor((Date.now() - started_at) / 60000)` and there is no
already-completed guard: the handler recompletes the row and increments the
user counters again. -/
def completeSessionV3 (now : Time) (s? : Option SessionState) (u : UserState) :
    Except ApiError SessionResult :=
  match s? with
  | none => .error .sessionNotFound
  | some s =>
    let actualMinutes := jsFloorDiv (now - s.startedAt) 60000
    if actualMinutes < 5 then .error .sessionTooShort
    else
      .ok { session := { s with isCompleted := true, completedAt := some now,
                                actualDuration := some actualMinutes },
            user := { u with sessionCount := u.sessionCount + 1,
                             totalStudyMinutes :=
                               u.totalStudyMinutes + actualMinutes },
            actualDuration := actualMinutes }

/-- JS `String.prototype.split(/\s+/)` on the character list: the pieces
between maximal whitespace runs, keeping the empty piece that JS produces
before a leading run and after a trailing run (`''.split(/\s+/)` is
`['']`, `' a '.split(/\s+/)` is `['', 'a', '']`).  A whitespace character
opens a new (initially empty) piece exactly when it is not followed by
another whitespace character of the same run; a non-whitespace character
extends the current first piece. -/
def splitWsRuns : List Char → List String
  | [] => [""]
  | [c] => if c.isWhitespace then ["", ""] else [String.mk [c]]
  | c :: d :: rest =>
    let pieces := splitWsRuns (d :: rest)
    if c.isWhitespace then
      if d.isWhitespace then pieces else "" :: pieces
    else
      match pieces with
      | h :: t => String.mk (c :: h.data) :: t
      | [] => [String.mk [c]]

/-- JS `s.split(/\s+/)` on a string. -/
def jsSplitWs (s : String) : List String := splitWsRuns s.data

/-- The `aar_entries` row created by `/api/aar/submit` (the free-text and
subject-binding columns). -/
structure AarEntry where
  subjectId : Option Nat
  whatWorked : String
  whatBlocked : String
  tomorrowPlan : String
  deriving Repr, DecidableEq

/-- `POST /api/aar/submit` (v2, `src/server.js:1029-1069`).  All three
fields must be non-empty (JS falsy check on strings); the word count is
`(whatWorked + whatBlocked + tomorrowPlan).split(/\s+/).length` — the three
fields concatenated with NO separator and the raw split length, which
counts the empty boundary pieces of leading/trailing whitespace.  On
acceptance: one `aar_entries` INSERT bound to the user's current
`primary_subject_id` (possibly NULL) and `aar_count` incremented by 1. -/
def submitAarV2 (whatWorked whatBlocked tomorrowPlan : String)
    (u : UserState) : Except ApiError (UserState × AarEntry) :=
  if whatWorked = "" ∨ whatBlocked = "" ∨ tomorrowPlan = "" then
    .error .missingFields
  else
    let wordCount := (jsSplitWs (whatWorked ++ whatBlocked ++ tomorrowPlan)).length
    if wordCount < 20 then .error .aarTooShort
    else
      .ok ({ u with aarCount := u.aarCount + 1 },
           { subjectId := u.primarySubjectId, whatWorked := whatWorked,
             whatBlocked := whatBlocked, tomorrowPlan := tomorrowPlan })

/-- `POST /api/aar/submit` (v3, `src/server.js:2113-2125`).  The word count
is `(whatWorked + ' ' + whatBlocked + ' ' + tomorrowPlan).split(/\s+/)
.filter(w => w).length` — fields joined by spaces and only non-empty pieces
counted, i.e. the true combined whitespace-separated word count.  Effects
as in v2; no subject-lock precondition (the handler reads
`primary_subject_id` only to bind the entry, accepting NULL). -/
def submitAarV3 (whatWorked whatBlocked tomorrowPlan : String)
    (u : UserState) : Except ApiError (UserState × AarEntry) :=
  if whatWorked = "" ∨ whatBlocked = "" ∨ tomorrowPlan = "" then
    .error .missingFields
  else
    let wordCount :=
      ((jsSplitWs (whatWorked ++ " " ++ whatBlocked ++ " " ++ tomorrowPlan)).filter
        (· ≠ "")).length
    if wordCount < 20 then .error .aarTooShort
    else
      .ok ({ u with aarCount := u.aarCount + 1 },
           { subjectId := u.primarySubjectId, whatWorked := whatWorked,
             whatBlocked := whatBlocked, tomorrowPlan := tomorrowPlan })

/-- States the claimed word-count rule in the spec's own terms, for
comparison with the handlers: the number of whitespace-separated words of
each field, summed over the three fields. -/
def specCombinedWordCount (whatWorked whatBlocked tomorrowPlan : String) : Nat :=
  ((jsSplitWs whatWorked).filter (· ≠ "")).length +
  ((jsSplitWs whatBlocked).filter (· ≠ "")).length +
  ((jsSplitWs tomorrowPlan).filter (· ≠ "")).length

/-- The `lockStatus` view computed by `GET /api/auth/me` (v2). -/
structure LockStatus where
  isLocked : Bool
  daysRemaining : Int
  aarsNeeded : Nat
  sessionsNeeded : Nat
  deriving Repr, DecidableEq

/-- `GET /api/auth/me` (v2, `src/server.js:624-681`): the `lockStatus`
block.  A pure read of the stored fields and the clock (the handler issues
no UPDATE).  `null` when no primary subject; otherwise
`daysRemaining = Math.ceil((lock_expires_at - now) / 86400000)` (0 when the
expiry is NULL) clamped at 0,
`canUnlock = lockExpires && now >= lockExpires && aar_count >= 3 &&
session_count >= 5`, `isLocked = !canUnlock`, and the needed counts clamped
at 0 (truncated subtraction on `Nat`). -/
def lockStatusV2 (now : Time) (u : UserState) : Option LockStatus :=
  match u.primarySubjectId with
  | none => none
  | some _ =>
    let daysRemaining : Int :=
      match u.lockExpiresAt with
      | some lockExpires => jsCeilDiv (lockExpires - now) 86400000
      | none => 0
    let canUnlock : Bool :=
      match u.lockExpiresAt with
      | some lockExpires =>
        decide (lockExpires ≤ now) && decide (3 ≤ u.aarCount) &&
          decide (5 ≤ u.sessionCount)
      | none => false
    some { isLocked := !canUnlock,
           daysRemaining := max 0 daysRemaining,
           aarsNeeded := 3 - u.aarCount,
           sessionsNeeded := 5 - u.sessionCount }

/-- One user-visible core operation, for the reachability statement.  Each
constructor carries the request data its handler reads; `declare` appears
in both shipped versions since they guard differently. -/
inductive Op where
  | declareV2 (now : Time) (isActiveSubject : Nat → Bool) (subjectId : Option Nat)
  | declareV3 (now : Time) (subjectId : Option Nat)
  | reqUnlock (now : Time)
  | approveUnlock
  | denyUnlock
  | forceUnlock
  | finishSession (now : Time) (s? : Option SessionState)
  | aar (whatWorked whatBlocked tomorrowPlan : String)

/-- The user-row effect of one operation: the handler's updated row on
success, the unchanged row on rejection (every handler rejects before its
first UPDATE). -/
def applyOp (op : Op) (u : UserState) : UserState :=
  match op with
  | .declareV2 now cat sid =>
    match declareSubjectV2 now cat sid u with
    | .ok u' => u'
    | .error _ => u
  | .declareV3 now sid =>
    match declareSubjectV3 now sid u with
    | .ok u' => u'
    | .error _ => u
  | .reqUnlock now =>
    match requestUnlock now u with
    | .ok (u', _) => u'
    | .error _ => u
  | .approveUnlock => adminApproveUnlock u
  | .denyUnlock => adminDenyUnlock u
  | .forceUnlock => adminForceUnlock u
  | .finishSession now s? =>
    match completeSessionV3 now s? u with
    | .ok r => r.user
    | .error _ => u
  | .aar w b t =>
    match submitAarV3 w b t u with
    | .ok (u', _) => u'
    | .error _ => u

/-- Runs a sequence of core operations from a given user row. -/
def runOps (ops : List Op) (u : UserState) : UserState :=
  ops.foldl (fun st op => applyOp op st) u

/-- The lock-field invariant of spec section 8: the three nullable lock
fields are null together, and a pending unlock request implies an active
lock. -/
def lockInvariant (u : UserState) : Prop :=
  (u.primarySubjectId.isSome ↔ u.subjectLockedAt.isSome) ∧
  (u.primarySubjectId.isSome ↔ u.lockExpiresAt.isSome) ∧
  (u.unlockRequested = true → u.primarySubjectId.isSome = true)

/-- Eighteen single-letter whitespace-separated words; together with
`aarX` and `aarY` below they form a 20-word AAR submission whose field
boundaries carry no whitespace of their own. -/
def aarWords18 : String := "a b c d e f g h i j k l m n o p q r"

/-- A one-word `whatBlocked` field. -/
def aarX : String := "x"

/-- A one-word `tomorrowPlan` field. -/
def aarY : String := "y"

/-- A user freshly locked to subject 1 at time 0 (expiry seven days
later), used to instantiate the view and unlock theorems. -/
def sampleLockedUser : UserState :=
  { freshUser with primarySubjectId := some 1, subjectLockedAt := some 0,
                   lockExpiresAt := some 604800000,
                   onboardingComplete := true }

/-! Bridging lemmas: the JS integer-millisecond arithmetic agrees with the
mathematical floor, ceiling and half-up rounding of the real quotients. -/

/-- `Math.floor(a / b)` on integers is the floor of the rational quotient. -/
theorem jsFloorDiv_eq_floor (a : Int) (b : Nat) :
    jsFloorDiv a b = ⌊(a : ℚ) / (b : ℚ)⌋ := by
  rw [jsFloorDiv, Rat.floor_intCast_div_natCast]; rfl

/-- `Math.ceil(a / b)` on integers is the ceiling of the rational quotient. -/
theorem jsCeilDiv_eq_ceil (a : Int) (b : Nat) :
    jsCeilDiv a b = ⌈(a : ℚ) / (b : ℚ)⌉ := by
  have h : (⌊(((-a) : Int) : ℚ) / (b : ℚ)⌋ : Int) = -⌈(a : ℚ) / (b : ℚ)⌉ := by
    push_cast
    rw [neg_div, Int.floor_neg]
  rw [Rat.floor_intCast_div_natCast] at h
  have h2 : Int.ediv (-a) b = -⌈(a : ℚ) / (b : ℚ)⌉ := by rw [← h]; rfl
  rw [jsCeilDiv, h2, neg_neg]

/-- `Math.round(ms / 60000)` as computed by `jsRoundDiv` is the half-up
rounding of the rational quotient (Mathlib's `round`). -/
theorem jsRoundDiv_eq_round (a : Int) :
    jsRoundDiv a 60000 = round ((a : ℚ) / 60000) := by
  rw [round_eq]
  have h : ((a : ℚ) / 60000 + 1 / 2) =
      (((2 * a + 60000 : Int)) : ℚ) / ((120000 : Nat) : ℚ) := by
    push_cast; ring
  rw [h, Rat.floor_intCast_div_natCast]
  have h2 : (2 * a + 60000) / ((120000 : Nat) : Int) = (a + 30000) / 60000 := by
    rw [show (2 * a + 60000) = 2 * (a + 30000) by ring,
        show ((120000 : Nat) : Int) = 2 * 60000 by norm_num]
    exact Int.mul_ediv_mul_of_pos _ _ (by norm_num)
  rw [jsRoundDiv, h2]; rfl

/-- Day-divisor instance of `jsFloorDiv_eq_floor`. -/
theorem jsFloorDiv_day (a : Int) :
    jsFloorDiv a 86400000 = ⌊(a : ℚ) / 86400000⌋ := by
  simpa using jsFloorDiv_eq_floor a 86400000

/-- Minute-divisor instance of `jsFloorDiv_eq_floor`. -/
theorem jsFloorDiv_minute (a : Int) :
    jsFloorDiv a 60000 = ⌊(a : ℚ) / 60000⌋ := by
  simpa using jsFloorDiv_eq_floor a 60000

/-- Day-divisor instance of `jsCeilDiv_eq_ceil`. -/
theorem jsCeilDiv_day (a : Int) :
    jsCeilDiv a 86400000 = ⌈(a : ℚ) / 86400000⌉ := by
  simpa using jsCeilDiv_eq_ceil a 86400000

/-- C1: `requestUnlock` on a user with no `primarySubjectId` rejects with
`NoActiveLock` and mutates nothing; on a locked user it computes
`daysElapsed = ⌊(now - lockedAt) / 1 day⌋` and, when
`daysElapsed ≥ 7 ∧ sessionCount ≥ 5 ∧ aarCount ≥ 3` (all inclusive), nulls
`primarySubjectId`, `lockedAt` and `lockExpiresAt`, sets
`onboardingComplete` and `unlockRequested` to false and reports `unlocked`;
otherwise it sets `unlockRequested := true` and `unlockRequestedAt := now`
and reports the not-unlocked outcome with the progress triple
`{daysElapsed, sessionCount, aarCount}`. -/
theorem requestUnlock_spec (now : Time) (u : UserState) :
    (u.primarySubjectId = none →
      requestUnlock now u = .error .noActiveLock) ∧
    ∀ lockedAt, u.primarySubjectId ≠ none → u.subjectLockedAt = some lockedAt →
      ((⌊((now - lockedAt : Int) : ℚ) / 86400000⌋ ≥ 7 ∧ u.sessionCount ≥ 5 ∧
          u.aarCount ≥ 3 →
        requestUnlock now u =
          .ok ({ u with primarySubjectId := none, subjectLockedAt := none,
                        lockExpiresAt := none, onboardingComplete := false,
                        unlockRequested := false }, .unlocked)) ∧
       (¬(⌊((now - lockedAt : Int) : ℚ) / 86400000⌋ ≥ 7 ∧ u.sessionCount ≥ 5 ∧
            u.aarCount ≥ 3) →
        requestUnlock now u =
          .ok ({ u with unlockRequested := true, unlockRequestedAt := some now },
               .pending { days := ⌊((now - lockedAt : Int) : ℚ) / 86400000⌋,
                          sessions := u.sessionCount, aars := u.aarCount }))) := by
  refine ⟨fun h => by simp [requestUnlock, h], fun lockedAt hp hl => ?_⟩
  obtain ⟨sid, hsid⟩ := Option.ne_none_iff_exists'.mp hp
  have hd := jsFloorDiv_day (now - lockedAt)
  constructor
  · intro hcond
    simp only [requestUnlock, hsid, hl, hd]
    rw [if_pos hcond]
  · intro hcond
    simp only [requestUnlock, hsid, hl, hd]
    rw [if_neg hcond]

/-- Witness for C1: at `now` = 7 days after `lockedAt = 0` with counters
5/3, the eligible branch fires and clears the lock. -/
theorem requestUnlock_spec_witness :
    requestUnlock 604800000
        { freshUser with primarySubjectId := some 1, subjectLockedAt := some 0,
                         lockExpiresAt := some 604800000,
                         onboardingComplete := true,
                         sessionCount := 5, aarCount := 3 } =
      .ok ({ freshUser with primarySubjectId := none, subjectLockedAt := none,
                            lockExpiresAt := none, onboardingComplete := false,
                            unlockRequested := false,
                            sessionCount := 5, aarCount := 3 }, .unlocked) := by
  have h := ((requestUnlock_spec 604800000
      { freshUser with primarySubjectId := some 1, subjectLockedAt := some 0,
                       lockExpiresAt := some 604800000,
                       onboardingComplete := true,
                       sessionCount := 5, aarCount := 3 }).2 0
      (by simp) rfl).1 (by norm_num)
  simpa using h

/-- C2 counterexample: the claim "declareSubject succeeds exactly when …
subjectId refers to an active catalog subject … and rejects with
SubjectNotFound whenever the subject id is invalid or inactive" is false of
the v3 handler, which consults no catalog at all: with an unassigned user
it locks onto subject 1 whether or not any such subject exists.  The claim
"rejects with AlreadyLocked whenever a subject is already assigned" is also
false of the v2 handler: a user with `primarySubjectId = 1` but
`onboardingComplete = false` re-declares subject 2 successfully. -/
theorem declareSubject_claim_counterexample :
    declareSubjectV3 0 (some 1) freshUser =
      .ok { freshUser with primarySubjectId := some 1,
                           subjectLockedAt := some 0,
                           lockExpiresAt := some 604800000,
                           onboardingComplete := true } ∧
    declareSubjectV2 0 (fun _ => true) (some 2)
        { freshUser with primarySubjectId := some 1,
                         subjectLockedAt := some 0,
                         lockExpiresAt := some 604800000,
                         onboardingComplete := false } =
      .ok { freshUser with primarySubjectId := some 2,
                           subjectLockedAt := some 0,
                           lockExpiresAt := some 604800000,
                           onboardingComplete := true } :=
  ⟨rfl, rfl⟩

/-- C2 (amended): in v2, `declareSubject` rejects with `AlreadyLocked`
exactly when a subject is assigned AND `onboardingComplete` is true,
rejects with `SubjectNotFound` when that guard passes but the subject is
not an active catalog subject, and otherwise locks the user
(`primarySubjectId := subjectId`, `lockedAt := now`,
`lockExpiresAt := now + 7 days`, `onboardingComplete := true`); in v3,
`declareSubject` rejects with `AlreadyLocked` whenever a subject is
assigned and otherwise locks the user with no catalog check at all.
Neither version mutates anything on rejection. -/
theorem declareSubject_spec (now : Time) (isActiveSubject : Nat → Bool)
    (sid : Nat) (u : UserState) :
    (u.primarySubjectId.isSome = true ∧ u.onboardingComplete = true →
      declareSubjectV2 now isActiveSubject (some sid) u = .error .alreadyLocked) ∧
    (¬(u.primarySubjectId.isSome = true ∧ u.onboardingComplete = true) →
      isActiveSubject sid = false →
      declareSubjectV2 now isActiveSubject (some sid) u = .error .subjectNotFound) ∧
    (¬(u.primarySubjectId.isSome = true ∧ u.onboardingComplete = true) →
      isActiveSubject sid = true →
      declareSubjectV2 now isActiveSubject (some sid) u =
        .ok { u with primarySubjectId := some sid, subjectLockedAt := some now,
                     lockExpiresAt := some (now + 604800000),
                     onboardingComplete := true }) ∧
    (u.primarySubjectId.isSome = true →
      declareSubjectV3 now (some sid) u = .error .alreadyLocked) ∧
    (u.primarySubjectId = none →
      declareSubjectV3 now (some sid) u =
        .ok { u with primarySubjectId := some sid, subjectLockedAt := some now,
                     lockExpiresAt := some (now + 604800000),
                     onboardingComplete := true }) := by
  refine ⟨fun h => ?_, fun h hcat => ?_, fun h hcat => ?_, fun h => ?_, fun h => ?_⟩
  · simp [declareSubjectV2, h.1, h.2]
  · rcases Decidable.not_and_iff_or_not.mp h with h' | h' <;>
      simp [declareSubjectV2, Bool.not_eq_true _ ▸ h', hcat]
  · rcases Decidable.not_and_iff_or_not.mp h with h' | h' <;>
      simp_all [declareSubjectV2]
  · simp [declareSubjectV3, h]
  · simp [declareSubjectV3, h]

/-- Witness for C2 (amended): a fresh user declaring active subject 1
under v2 gets locked for 7 days. -/
theorem declareSubject_spec_witness :
    declareSubjectV2 0 (fun _ => true) (some 1) freshUser =
      .ok { freshUser with primarySubjectId := some 1,
                           subjectLockedAt := some 0,
                           lockExpiresAt := some 604800000,
                           onboardingComplete := true } :=
  (declareSubject_spec 0 (fun _ => true) 1 freshUser).2.2.1
    (by simp [freshUser]) rfl

/-- C3: `adminApproveUnlock` needs no eligibility precondition and, for any
user row, clears the lock-field group exactly as the auto-unlock path does
(`primarySubjectId`, `lockedAt`, `lockExpiresAt` to null,
`onboardingComplete` and `unlockRequested` to false) and additionally
zeroes `sessionCount` and `aarCount`, leaving `totalStudyMinutes` and
`unlockRequestedAt` alone; `adminForceUnlock` has the identical effect on
user state and requires no pending request. -/
theorem adminUnlock_spec (u : UserState) :
    (adminApproveUnlock u).primarySubjectId = none ∧
    (adminApproveUnlock u).subjectLockedAt = none ∧
    (adminApproveUnlock u).lockExpiresAt = none ∧
    (adminApproveUnlock u).onboardingComplete = false ∧
    (adminApproveUnlock u).unlockRequested = false ∧
    (adminApproveUnlock u).sessionCount = 0 ∧
    (adminApproveUnlock u).aarCount = 0 ∧
    (adminApproveUnlock u).totalStudyMinutes = u.totalStudyMinutes ∧
    (adminApproveUnlock u).unlockRequestedAt = u.unlockRequestedAt ∧
    adminForceUnlock u = adminApproveUnlock u := by
  simp [adminApproveUnlock, adminForceUnlock]

/-- C4: `adminDenyUnlock` sets `unlockRequested := false` and leaves every
other user field unchanged, so a second call in a row changes nothing. -/
theorem adminDenyUnlock_spec (u : UserState) :
    (adminDenyUnlock u).unlockRequested = false ∧
    (adminDenyUnlock u).primarySubjectId = u.primarySubjectId ∧
    (adminDenyUnlock u).subjectLockedAt = u.subjectLockedAt ∧
    (adminDenyUnlock u).lockExpiresAt = u.lockExpiresAt ∧
    (adminDenyUnlock u).onboardingComplete = u.onboardingComplete ∧
    (adminDenyUnlock u).unlockRequestedAt = u.unlockRequestedAt ∧
    (adminDenyUnlock u).sessionCount = u.sessionCount ∧
    (adminDenyUnlock u).aarCount = u.aarCount ∧
    (adminDenyUnlock u).totalStudyMinutes = u.totalStudyMinutes ∧
    adminDenyUnlock (adminDenyUnlock u) = adminDenyUnlock u := by
  simp [adminDenyUnlock]

/-- A successful v2 declaration leaves the lock-field group coherent. -/
theorem declareSubjectV2_ok_inv (now : Time) (cat : Nat → Bool)
    (sid : Option Nat) (u u' : UserState)
    (heq : declareSubjectV2 now cat sid u = .ok u') : lockInvariant u' := by
  cases sid with
  | none => simp [declareSubjectV2] at heq
  | some s =>
    simp only [declareSubjectV2] at heq
    split at heq
    · exact absurd heq (by simp)
    · split at heq
      · exact absurd heq (by simp)
      · simp only [Except.ok.injEq] at heq
        subst heq
        simp [lockInvariant]

/-- A successful v3 declaration leaves the lock-field group coherent. -/
theorem declareSubjectV3_ok_inv (now : Time) (sid : Option Nat)
    (u u' : UserState) (heq : declareSubjectV3 now sid u = .ok u') :
    lockInvariant u' := by
  cases sid with
  | none => simp [declareSubjectV3] at heq
  | some s =>
    simp only [declareSubjectV3] at heq
    split at heq
    · exact absurd heq (by simp)
    · simp only [Except.ok.injEq] at heq
      subst heq
      simp [lockInvariant]

/-- A successful unlock request preserves the lock-field invariant. -/
theorem requestUnlock_ok_inv (now : Time) (u u' : UserState)
    (o : UnlockOutcome) (h : lockInvariant u)
    (heq : requestUnlock now u = .ok (u', o)) : lockInvariant u' := by
  obtain ⟨h1, h2, h3⟩ := h
  cases hp : u.primarySubjectId with
  | none => simp [requestUnlock, hp] at heq
  | some s =>
    simp only [requestUnlock, hp] at heq
    split at heq <;>
      simp only [Except.ok.injEq, Prod.mk.injEq] at heq <;>
      obtain ⟨rfl, rfl⟩ := heq <;>
      simp_all [lockInvariant]

/-- A successful v3 session completion touches only the counters. -/
theorem completeSessionV3_ok_inv (now : Time) (s? : Option SessionState)
    (u : UserState) (r : SessionResult) (h : lockInvariant u)
    (heq : completeSessionV3 now s? u = .ok r) : lockInvariant r.user := by
  cases s? with
  | none => simp [completeSessionV3] at heq
  | some s =>
    simp only [completeSessionV3] at heq
    split at heq
    · exact absurd heq (by simp)
    · simp only [Except.ok.injEq] at heq
      subst heq
      simpa [lockInvariant] using h

/-- A successful v3 AAR submission touches only the counters. -/
theorem submitAarV3_ok_inv (w b t : String) (u u' : UserState)
    (entry : AarEntry) (h : lockInvariant u)
    (heq : submitAarV3 w b t u = .ok (u', entry)) : lockInvariant u' := by
  simp only [submitAarV3] at heq
  split at heq
  · exact absurd heq (by simp)
  · split at heq
    · exact absurd heq (by simp)
    · simp only [Except.ok.injEq, Prod.mk.injEq] at heq
      obtain ⟨rfl, rfl⟩ := heq
      simpa [lockInvariant] using h

/-- Every single core operation preserves the lock-field invariant: the
handlers either reject (leaving the row alone) or write the lock-field
group coherently. -/
theorem applyOp_lockInvariant (op : Op) (u : UserState) (h : lockInvariant u) :
    lockInvariant (applyOp op u) := by
  cases op with
  | declareV2 now cat sid =>
    simp only [applyOp]
    split
    · exact declareSubjectV2_ok_inv now cat sid u _ (by assumption)
    · exact h
  | declareV3 now sid =>
    simp only [applyOp]
    split
    · exact declareSubjectV3_ok_inv now sid u _ (by assumption)
    · exact h
  | reqUnlock now =>
    simp only [applyOp]
    split
    · exact requestUnlock_ok_inv now u _ _ h (by assumption)
    · exact h
  | approveUnlock => simp [applyOp, adminApproveUnlock, lockInvariant]
  | denyUnlock =>
    obtain ⟨h1, h2, h3⟩ := h
    exact ⟨by simpa [applyOp, adminDenyUnlock, lockInvariant] using h1,
           by simpa [applyOp, adminDenyUnlock, lockInvariant] using h2,
           by simp [applyOp, adminDenyUnlock, lockInvariant]⟩
  | forceUnlock => simp [applyOp, adminForceUnlock, lockInvariant]
  | finishSession now s? =>
    simp only [applyOp]
    split
    · exact completeSessionV3_ok_inv now s? u _ h (by assumption)
    · exact h
  | aar w b t =>
    simp only [applyOp]
    split
    · exact submitAarV3_ok_inv w b t u _ _ h (by assumption)
    · exact h

/-- C5: every user state reachable from a freshly registered user by any
sequence of core operations (both declare versions, requestUnlock, the
three admin transitions, session completion, AAR submission) satisfies:
`primarySubjectId`, `lockedAt` and `lockExpiresAt` are null together, and
`unlockRequested = true` implies `primarySubjectId` is non-null. -/
theorem reachable_lockInvariant (ops : List Op) :
    lockInvariant (runOps ops freshUser) := by
  suffices h : ∀ (l : List Op) (u : UserState), lockInvariant u →
      lockInvariant (runOps l u) by
    exact h ops freshUser ⟨by simp [freshUser], by simp [freshUser],
      by simp [freshUser]⟩
  intro l
  induction l with
  | nil => exact fun u hu => hu
  | cons op t ih => exact fun u hu => ih _ (applyOp_lockInvariant op u hu)

/-- C6 counterexample: a session completed 270000 ms (4.5 minutes) after
it started.  `Math.round` gives `actualDuration = 5`, so the claim
("computes round", "exactly 5 minutes is accepted") says the completion
succeeds; the cited v3 handler floors to 4 and rejects with
`SessionTooShort`. -/
theorem completeSession_round_counterexample :
    completeSessionV3 270000
        (some { startedAt := 0, isCompleted := false, completedAt := none,
                actualDuration := none }) freshUser =
      .error .sessionTooShort ∧
    round ((270000 - 0 : ℚ) / 60000) = 5 := by
  refine ⟨rfl, ?_⟩
  norm_num [round_eq]

/-- C6 (amended): the v3 completion handler computes
`actualDuration = ⌊(now - startedAt) / 1 minute⌋` — floor, not round — and
rejects with `SessionTooShort` exactly when that value is below 5 (so a
floored duration of exactly 5 is accepted, and rejection returns an error
with no state change); it is the v2 handler of the same route that rounds,
rejecting exactly when the rounded duration is below 5. -/
theorem completeSession_duration_spec (now : Time) (s : SessionState)
    (u : UserState) :
    (completeSessionV3 now (some s) u = .error .sessionTooShort ↔
      ⌊((now - s.startedAt : Int) : ℚ) / 60000⌋ < 5) ∧
    (5 ≤ ⌊((now - s.startedAt : Int) : ℚ) / 60000⌋ →
      ∃ r, completeSessionV3 now (some s) u = .ok r ∧
        r.actualDuration = ⌊((now - s.startedAt : Int) : ℚ) / 60000⌋) ∧
    (s.isCompleted = false →
      (completeSessionV2 now (some s) u = .error .sessionTooShort ↔
        round (((now - s.startedAt : Int) : ℚ) / 60000) < 5)) := by
  have hf := jsFloorDiv_minute (now - s.startedAt)
  have hr := jsRoundDiv_eq_round (now - s.startedAt)
  refine ⟨?_, ?_, fun hc => ?_⟩
  · simp only [completeSessionV3, hf]
    split <;> simp_all
  · intro hge
    simp only [completeSessionV3, hf]
    rw [if_neg (not_lt.mpr hge)]
    exact ⟨_, rfl, rfl⟩
  · simp only [completeSessionV2, hc, Bool.false_eq_true, if_false, hr]
    split <;> simp_all

/-- Witness for C6 (amended): a session of exactly 300000 ms (5 floored
minutes) is accepted by the v3 handler. -/
theorem completeSession_duration_spec_witness :
    ∃ r, completeSessionV3 300000
        (some { startedAt := 0, isCompleted := false, completedAt := none,
                actualDuration := none }) freshUser = .ok r ∧
      r.actualDuration = ⌊((300000 - 0 : Int) : ℚ) / 60000⌋ :=
  (completeSession_duration_spec 300000
      { startedAt := 0, isCompleted := false, completedAt := none,
        actualDuration := none } freshUser).2.1 (by norm_num)

/-- C7 failing input: `src/server.js:2100-2111` (the v3 completion
handler) dropped the `is_completed` guard that v2 has.  On a session that
is already completed (duration 10 minutes recorded), the v3 handler
succeeds again, restamps the row, and increments `session_count` and
`total_study_minutes` a second time, where the claim (and the v2 handler,
shown alongside) requires a failure with no mutation. -/
theorem completeSessionV3_already_completed :
    completeSessionV3 600000
        (some { startedAt := 0, isCompleted := true, completedAt := some 600000,
                actualDuration := some 10 }) freshUser =
      .ok { session := { startedAt := 0, isCompleted := true,
                         completedAt := some 600000,
                         actualDuration := some 10 },
            user := { freshUser with sessionCount := 1,
                                     totalStudyMinutes := 10 },
            actualDuration := 10 } ∧
    completeSessionV2 600000
        (some { startedAt := 0, isCompleted := true, completedAt := some 600000,
                actualDuration := some 10 }) freshUser =
      .error .sessionAlreadyCompleted :=
  ⟨rfl, rfl⟩

/-- C8 counterexample: a submission of exactly 20 combined words
(18 + 1 + 1, all three fields non-empty), which the claim says is
accepted, is rejected with `AarTooShort` by the cited v2 handler: it
concatenates the fields with no separator, so the words at the field
boundaries merge and only 18 split pieces remain. -/
theorem submitAar_wordcount_counterexample :
    specCombinedWordCount aarWords18 aarX aarY = 20 ∧
    (aarWords18 ≠ "" ∧ aarX ≠ "" ∧ aarY ≠ "") ∧
    submitAarV2 aarWords18 aarX aarY freshUser = .error .aarTooShort := by
  refine ⟨by decide, by decide, rfl⟩

/-- C8 (amended): the v3 handler implements the claim — it rejects empty
fields, rejects with `AarTooShort` exactly when the whitespace-separated
word count of the space-joined three fields (the combined word count) is
below 20, and on acceptance inserts one entry bound to the user's current
subject and increments `aarCount` by exactly 1, mutating nothing on
rejection.  The v2 handler instead takes the raw `split(/\s+/)` length of
the three fields concatenated WITHOUT separators, which merges words
across field boundaries (and counts empty boundary pieces), so its
accept/reject decision can differ from the combined word count on the
same input. -/
theorem submitAar_spec (w b t : String) (u : UserState) :
    (w = "" ∨ b = "" ∨ t = "" →
      submitAarV3 w b t u = .error .missingFields) ∧
    (¬(w = "" ∨ b = "" ∨ t = "") →
      (submitAarV3 w b t u = .error .aarTooShort ↔
        ((jsSplitWs (w ++ " " ++ b ++ " " ++ t)).filter (· ≠ "")).length < 20) ∧
      (20 ≤ ((jsSplitWs (w ++ " " ++ b ++ " " ++ t)).filter (· ≠ "")).length →
        submitAarV3 w b t u =
          .ok ({ u with aarCount := u.aarCount + 1 },
               { subjectId := u.primarySubjectId, whatWorked := w,
                 whatBlocked := b, tomorrowPlan := t })) ∧
      (submitAarV2 w b t u = .error .aarTooShort ↔
        (jsSplitWs (w ++ b ++ t)).length < 20)) := by
  refine ⟨fun h => by simp [submitAarV3, h], fun h => ⟨?_, fun hc => ?_, ?_⟩⟩
  · simp only [submitAarV3, if_neg h]
    split <;> simp_all
  · simp only [submitAarV3, if_neg h]
    rw [if_neg (not_lt.mpr hc)]
  · simp only [submitAarV2, if_neg h]
    split <;> simp_all

/-- Witness for C8 (amended): the same 20-word submission is accepted by
the v3 handler, inserting one entry and bumping `aarCount` to 1. -/
theorem submitAar_spec_witness :
    submitAarV3 aarWords18 aarX aarY freshUser =
      .ok ({ freshUser with aarCount := 1 },
           { subjectId := none, whatWorked := aarWords18,
             whatBlocked := aarX, tomorrowPlan := aarY }) := by
  have h := ((submitAar_spec aarWords18 aarX aarY freshUser).2
      (by decide)).2.1 (by decide)
  simpa [freshUser] using h

/-- C9: for a user with a primary subject and a stored lock expiry, the
v2 `lockStatus` view is a pure function of the stored fields and the clock
satisfying: `isLocked` is false exactly when the expiry has passed
(inclusive) and `aarCount ≥ 3` and `sessionCount ≥ 5`;
`daysRemaining = max 0 ⌈(lockExpiresAt - now) / 1 day⌉`;
`aarsNeeded = max 0 (3 - aarCount)`; and
`sessionsNeeded = max 0 (5 - sessionCount)`. -/
theorem lockStatus_spec (now : Time) (u : UserState) (e : Time)
    (hp : u.primarySubjectId ≠ none) (he : u.lockExpiresAt = some e) :
    ∃ st, lockStatusV2 now u = some st ∧
      (st.isLocked = false ↔ e ≤ now ∧ 3 ≤ u.aarCount ∧ 5 ≤ u.sessionCount) ∧
      st.daysRemaining = max 0 ⌈((e - now : Int) : ℚ) / 86400000⌉ ∧
      (st.aarsNeeded : Int) = max 0 (3 - (u.aarCount : Int)) ∧
      (st.sessionsNeeded : Int) = max 0 (5 - (u.sessionCount : Int)) := by
  obtain ⟨sid, hsid⟩ := Option.ne_none_iff_exists'.mp hp
  simp only [lockStatusV2, hsid, he]
  refine ⟨_, rfl, ?_, ?_, ?_, ?_⟩
  · simp [and_assoc]
  · dsimp only
    rw [jsCeilDiv_day]
  · dsimp only
    rw [Int.max_def]
    split <;> omega
  · dsimp only
    rw [Int.max_def]
    split <;> omega

/-- Witness for C9: the view evaluated on a user freshly locked at time 0
and read back at time 0. -/
theorem lockStatus_spec_witness :
    ∃ st, lockStatusV2 0 sampleLockedUser = some st ∧
      (st.isLocked = false ↔ (604800000 : Int) ≤ 0 ∧
        3 ≤ sampleLockedUser.aarCount ∧ 5 ≤ sampleLockedUser.sessionCount) ∧
      st.daysRemaining = max 0 ⌈((604800000 - 0 : Int) : ℚ) / 86400000⌉ ∧
      (st.aarsNeeded : Int) = max 0 (3 - (sampleLockedUser.aarCount : Int)) ∧
      (st.sessionsNeeded : Int) =
        max 0 (5 - (sampleLockedUser.sessionCount : Int)) :=
  lockStatus_spec 0 sampleLockedUser 604800000 (by simp [sampleLockedUser]) rfl

/-- C10: the v3 AAR handler has no subject-lock precondition: a user with
`primarySubjectId = null` whose submission has non-empty fields and passes
the 20-word rule succeeds, the inserted entry carries a null subject, and
`aarCount` is incremented by exactly 1, so AAR progress toward unlock
eligibility accrues with no active lock. -/
theorem submitAar_unassigned_spec (w b t : String) (u : UserState)
    (hu : u.primarySubjectId = none) (hw : w ≠ "") (hb : b ≠ "") (ht : t ≠ "")
    (hc : 20 ≤ ((jsSplitWs (w ++ " " ++ b ++ " " ++ t)).filter (· ≠ "")).length) :
    submitAarV3 w b t u =
      .ok ({ u with aarCount := u.aarCount + 1 },
           { subjectId := none, whatWorked := w, whatBlocked := b,
             tomorrowPlan := t }) := by
  simp only [submitAarV3, hu]
  rw [if_neg (by simp [hw, hb, ht]), if_neg (not_lt.mpr hc)]

/-- Witness for C10: an unassigned user with prior counters submits the
20-word AAR and gets `aarCount` bumped from 2 to 3, the entry unbound. -/
theorem submitAar_unassigned_spec_witness :
    submitAarV3 aarWords18 aarX aarY
        { freshUser with aarCount := 2, sessionCount := 5,
                         totalStudyMinutes := 60 } =
      .ok ({ freshUser with aarCount := 3, sessionCount := 5,
                            totalStudyMinutes := 60 },
           { subjectId := none, whatWorked := aarWords18,
             whatBlocked := aarX, tomorrowPlan := aarY }) := by
  have h := submitAar_unassigned_spec aarWords18 aarX aarY
      { freshUser with aarCount := 2, sessionCount := 5,
                       totalStudyMinutes := 60 }
      rfl (by decide) (by decide) (by decide) (by decide)
  simpa [freshUser] using h

end RNPathfinders
